import Mathlib

/-!
Verification development for an admin-only blog CMS backend
(Express + Mongoose, TypeScript). The definitions below are a shallow
embedding of the server source:

- utils/AppError.ts          -> AppError
- utils/apiFeatures.ts       -> jsParseInt, paginateCalc, stage functions
- models (User/Author/Post)  -> StoredUser / StoredAuthor / StoredPost
- services/auth.service.ts   -> register, login, signToken
- services/post.service.ts   -> createPost, getPosts, updatePost, deletePost
- author service             -> getAuthors, deleteAuthor
- controllers/user.controller.ts -> getUsers, deactivateUser
- middlewares/auth.ts        -> protect, adminOnly, superAdminOnly
- route files                -> middleware chains per endpoint

Stores are lists of records; Mongo queries become list filters; JavaScript
numbers that can be NaN are modelled as Option Int with none = NaN.
External libraries are idealised where the code calls them: bcrypt is a
deterministic ideal hash with compare-by-equality, jwt.sign/verify is a
record carrying the payload, the signing secret and the expiry instant,
and the zod email format check is modelled as a simple name-at-domain
shape test. Each such idealisation is noted at its definition.
-/

set_option autoImplicit false

/-- utils/AppError.ts: an error with a message and an HTTP status code. -/
structure AppError where
  message : String
  statusCode : Nat
deriving DecidableEq, Repr

/-- Sum the decimal digits of a character list into a natural number
(helper for the parseInt model). -/
def digitsToNat (ds : List Char) : Nat :=
  ds.foldl (fun n c => n * 10 + (c.toNat - 48)) 0

/-- JavaScript parseInt(s, 10): skip leading whitespace, read an optional
sign and then the longest digit prefix; none models NaN (no digits). -/
def jsParseInt (s : String) : Option Int :=
  let cs := s.data.dropWhile (fun c => c = ' ' || c = '\t' || c = '\n' || c = '\r')
  let signRest : Int × List Char :=
    match cs with
    | '-' :: r => (-1, r)
    | '+' :: r => (1, r)
    | r => (1, r)
  let ds := signRest.2.takeWhile Char.isDigit
  if ds.isEmpty then none
  else some (signRest.1 * (digitsToNat ds : Int))

/-- JavaScript `String(v || d)` for an optional string query parameter:
an absent parameter or the empty string (both falsy) fall back to d. -/
def effectiveParam (v : Option String) (d : String) : String :=
  match v with
  | none => d
  | some s => if s = "" then d else s

/-- JavaScript truthiness of an optional string parameter. -/
def truthyStr (v : Option String) : Bool :=
  match v with
  | none => false
  | some s => s ≠ ""

/-- JavaScript String.prototype.trim, on the character list so that it
evaluates by kernel reduction. -/
def jsTrim (s : String) : String :=
  String.mk (((s.data.dropWhile Char.isWhitespace).reverse.dropWhile
    Char.isWhitespace).reverse)

/-- Lower-case a string character by character. -/
def strToLower (s : String) : String :=
  String.mk (s.data.map Char.toLower)

/-- Substring test on character lists (needle occurs contiguously). -/
def containsSub (needle : List Char) : List Char → Bool
  | [] => needle.isEmpty
  | c :: cs => needle.isPrefixOf (c :: cs) || containsSub needle cs

/-- Raw request query parameters recognised anywhere in the API
(utils/apiFeatures.ts control params plus per-resource filter params).
Every field is an optional raw string, as delivered by Express. -/
structure ReqQuery where
  page : Option String := none
  limit : Option String := none
  sort : Option String := none
  order : Option String := none
  q : Option String := none
  status : Option String := none
  author : Option String := none
  authorId : Option String := none
  tag : Option String := none
  name : Option String := none
  email : Option String := none
deriving DecidableEq, Repr

/-- The page/limit/skip numbers computed by ApiFeatures.paginate
(utils/apiFeatures.ts lines 63-73); none models NaN. -/
structure PageCalc where
  page : Option Int
  limit : Option Int
  skip : Option Int
deriving DecidableEq, Repr

/-- ApiFeatures.paginate(defaultLimit, maxLimit):
page = max(parseInt(reqQuery.page or "1"), 1),
limit = min(max(parseInt(reqQuery.limit or defaultLimit), 1), maxLimit),
skip = (page - 1) * limit, with NaN (none) propagating exactly as
Math.max/Math.min and arithmetic propagate NaN in JavaScript. -/
def paginateCalc (rq : ReqQuery) (defaultLimit maxLimit : Int) : PageCalc :=
  let page := (jsParseInt (effectiveParam rq.page "1")).map (fun n => max n 1)
  let limit := (jsParseInt (effectiveParam rq.limit (toString defaultLimit))).map
    (fun n => min (max n 1) maxLimit)
  let skip :=
    match page, limit with
    | some p, some l => some ((p - 1) * l)
    | _, _ => none
  ⟨page, limit, skip⟩

/-- Math.max(Math.ceil(total / limit), 1) for a natural total and a
positive natural limit. -/
def jsCeilPages (total limit : Nat) : Nat :=
  max ((total + limit - 1) / limit) 1

/-- models/User.ts: operator account record. Mongo ObjectIds are modelled
as strings; timestamps as naturals. -/
structure StoredUser where
  id : String
  name : String
  email : String
  password : String
  role : String := "admin"
  isActive : Bool := true
  deletedAt : Option Nat := none
  createdAt : Nat := 0
deriving DecidableEq, Repr

/-- models/Author.ts: author profile record. -/
structure StoredAuthor where
  id : String
  name : String
  email : String
  bio : String := ""
  status : String := "active"
  deletedAt : Option Nat := none
  createdAt : Nat := 0
deriving DecidableEq, Repr

/-- models/Post.ts default for the image field. -/
def DEFAULT_POST_IMAGE : String :=
  "https://images.unsplash.com/photo-1486312338219-ce68d2c6f44d?auto=format&fit=crop&w=1200&q=80"

/-- models/Post.ts: post record; author is an ObjectId reference. -/
structure StoredPost where
  id : String
  title : String
  slug : String
  content : String
  image : String := DEFAULT_POST_IMAGE
  status : String := "draft"
  tags : List String := []
  author : String
  publishedAt : Option Nat := none
  deletedAt : Option Nat := none
  createdAt : Nat := 0
deriving DecidableEq, Repr

abbrev UserStore := List StoredUser
abbrev AuthorStore := List StoredAuthor
abbrev PostStore := List StoredPost

/-- Replace the first list element satisfying the predicate (the model of
a Mongo findOneAndUpdate / save on the single matched document). -/
def updateFirst {α : Type} (pred : α → Bool) (f : α → α) : List α → List α
  | [] => []
  | x :: xs => if pred x then f x :: xs else x :: updateFirst pred f xs

/-- Process-wide configuration from config/env.ts: the JWT signing secret
and the token lifetime (JWT_EXPIRES_IN, in abstract clock units). -/
structure EnvConfig where
  JWT_SECRET : String
  JWT_EXPIRES_IN : Nat
deriving DecidableEq, Repr

/-- The payload signed into a token by auth.service.ts signToken. -/
structure JwtClaims where
  userId : String
  role : String
deriving DecidableEq, Repr

/-- Idealised jsonwebtoken signed token: the claims together with the
secret it was signed with and its expiry instant. jwt.verify succeeds
exactly when the verifying secret equals the signing secret and the
token is not expired. -/
structure SignedToken where
  claims : JwtClaims
  secret : String
  exp : Nat
deriving DecidableEq, Repr

/-- auth.service.ts signToken: jwt.sign(payload, secret, expiresIn). -/
def signToken (env : EnvConfig) (now : Nat) (payload : JwtClaims) : SignedToken :=
  ⟨payload, env.JWT_SECRET, now + env.JWT_EXPIRES_IN⟩

/-- jwt.verify model: secret must match and the token must be unexpired. -/
def jwtVerify (t : SignedToken) (secret : String) (now : Nat) : Option JwtClaims :=
  if t.secret = secret ∧ now < t.exp then some t.claims else none

/-- Idealised bcrypt.hash (deterministic; the salt is irrelevant to every
claim, which only needs that the correct password verifies). -/
def bcryptHash (p : String) : String := "$2b$10$" ++ p

/-- Idealised bcrypt.compare: a password matches a stored hash exactly
when hashing it reproduces the hash. -/
def bcryptCompare (p hash : String) : Bool := hash = bcryptHash p

/-- The fields of a user returned to clients by register/login. -/
structure PublicUser where
  id : String
  name : String
  email : String
  role : String
deriving DecidableEq, Repr

/-- The value returned by register and login: a token plus the public
projection of the user. -/
structure AuthResult where
  token : SignedToken
  user : PublicUser
deriving DecidableEq, Repr

/-- User.findOne with an email equality filter (first match in the store). -/
def findUserByEmail (store : UserStore) (email : String) : Option StoredUser :=
  List.find? (fun u => u.email = email) store

/-- auth.service.ts register: reject a duplicate email with 409, hash the
password, create the user with role defaulting to admin, and sign a token
with the created user's id and role. The fresh ObjectId is modelled as
the store length rendered as a string. -/
def register (env : EnvConfig) (now : Nat) (store : UserStore)
    (name email password : String) (role : Option String) :
    Except AppError (UserStore × AuthResult) :=
  match findUserByEmail store email with
  | some _ => .error ⟨"Email already in use", 409⟩
  | none =>
    let user : StoredUser :=
      { id := toString (List.length store), name := name, email := email,
        password := bcryptHash password, role := role.getD "admin",
        isActive := true, deletedAt := none, createdAt := now }
    .ok (store ++ [user],
      ⟨signToken env now ⟨user.id, user.role⟩,
       ⟨user.id, user.name, user.email, user.role⟩⟩)

/-- auth.service.ts login: look the user up by email only, compare the
password against the stored hash, and sign a fresh token. The lookup has
no isActive condition; both failures are 401 with the same message. -/
def login (env : EnvConfig) (now : Nat) (store : UserStore)
    (email password : String) : Except AppError AuthResult :=
  match findUserByEmail store email with
  | none => .error ⟨"Invalid email or password", 401⟩
  | some user =>
    if bcryptCompare password user.password then
      .ok ⟨signToken env now ⟨user.id, user.role⟩,
           ⟨user.id, user.name, user.email, user.role⟩⟩
    else .error ⟨"Invalid email or password", 401⟩

/-- middlewares/schemas.ts registerSchema: name at least 2 characters,
a valid email, password at least 6 characters, role absent or one of
admin / super_admin. The zod .email() format check is modelled as a
name-at-domain shape test (one at-sign separating nonempty parts). -/
def registerSchemaOk (name email password : String) (role : Option String) : Bool :=
  let pre := email.data.takeWhile (fun c => c ≠ '@')
  let rest := email.data.dropWhile (fun c => c ≠ '@')
  2 ≤ name.length &&
  (match rest with
   | '@' :: post => pre ≠ [] && post ≠ [] && !post.contains '@'
   | _ => false) &&
  6 ≤ password.length &&
  (match role with
   | none => true
   | some r => r = "admin" || r = "super_admin")

/-- user.controller.ts deactivateUser: User.findByIdAndUpdate(id,
sets isActive false and deletedAt now). The filter is the id alone —
there is no condition on the current isActive value, so an already
inactive user is matched and rewritten again. Missing id yields 404. -/
def deactivateUser (now : Nat) (store : UserStore) (id : String) :
    Except AppError (UserStore × StoredUser) :=
  match List.find? (fun u => u.id = id) store with
  | none => .error ⟨"User not found", 404⟩
  | some u =>
    let upd : StoredUser → StoredUser :=
      fun v => { v with isActive := false, deletedAt := some now }
    .ok (updateFirst (fun v => v.id = id) upd store, upd u)

/-- user.controller.ts updateUserRole: User.findByIdAndUpdate(id, role). -/
def updateUserRole (store : UserStore) (id : String) (role : String) :
    Except AppError (UserStore × StoredUser) :=
  match List.find? (fun u => u.id = id) store with
  | none => .error ⟨"User not found", 404⟩
  | some u =>
    let upd : StoredUser → StoredUser := fun v => { v with role := role }
    .ok (updateFirst (fun v => v.id = id) upd store, upd u)

/-- The filter used by Author findOne/findOneAndUpdate calls:
id matches and status is not deleted. -/
def authorAlive (id : String) (a : StoredAuthor) : Bool :=
  a.id = id && a.status ≠ "deleted"

/-- The filter used by Post findOne/findOneAndUpdate calls:
id matches and status is not deleted. -/
def postAlive (id : String) (p : StoredPost) : Bool :=
  p.id = id && p.status ≠ "deleted"

/-- author.service.ts deleteAuthor: find the author with status not
deleted (else 404); count posts referencing it with status not deleted;
if the count is positive fail with the referential-conflict 400 before
any write; otherwise set status deleted and deletedAt now and save. -/
def deleteAuthor (now : Nat) (astore : AuthorStore) (pstore : PostStore)
    (id : String) : Except AppError (AuthorStore × StoredAuthor) :=
  match List.find? (authorAlive id) astore with
  | none => .error ⟨"Author not found", 404⟩
  | some a =>
    let activePostsCount :=
      (pstore.filter (fun p => p.author = a.id && p.status ≠ "deleted")).length
    if 0 < activePostsCount then
      .error ⟨"Cannot delete author: this author still has posts. Delete the author\x27s posts first.", 400⟩
    else
      let upd : StoredAuthor → StoredAuthor :=
        fun v => { v with status := "deleted", deletedAt := some now }
      .ok (updateFirst (authorAlive id) upd astore, upd a)

/-- post.service.ts deletePost: findOneAndUpdate on id with status not
deleted, setting status deleted, deletedAt now and publishedAt null;
no match (missing or already deleted) yields 404. -/
def deletePost (now : Nat) (store : PostStore) (id : String) :
    Except AppError (PostStore × StoredPost) :=
  match List.find? (postAlive id) store with
  | none => .error ⟨"Post not found", 404⟩
  | some p =>
    let upd : StoredPost → StoredPost :=
      fun v => { v with status := "deleted", deletedAt := some now, publishedAt := none }
    .ok (updateFirst (postAlive id) upd store, upd p)

/-- The body accepted by createPostSchema, after upload/normalize
middlewares. Optional fields are none when absent. publishedAt is kept
because the validate middleware discards the parsed result, so extra
body keys reach the service untouched; a present-but-null JSON value is
some none. -/
structure CreatePostPayload where
  title : String
  slug : String
  content : String
  author : String
  image : Option String := none
  status : Option String := none
  tags : Option (List String) := none
  publishedAt : Option (Option Nat) := none
deriving DecidableEq, Repr

/-- post.service.ts createPost: reject status deleted with 400 before any
write; default publishedAt to now when creating published without a
truthy publishedAt; null it for draft; force deletedAt null; default a
blank or absent image; then Post.create with the schema defaults
(status draft when absent, empty tags). The fresh ObjectId is modelled
as the store length rendered as a string. -/
def createPost (now : Nat) (store : PostStore) (data : CreatePostPayload) :
    Except AppError (PostStore × StoredPost) :=
  if data.status = some "deleted" then
    .error ⟨"Cannot create a post with status \x27deleted\x27", 400⟩
  else
    let pa1 : Option (Option Nat) :=
      if data.status = some "published" &&
         (data.publishedAt = none || data.publishedAt = some none) then
        some (some now)
      else data.publishedAt
    let pa2 : Option (Option Nat) :=
      if data.status = some "draft" then some none else pa1
    let image :=
      match data.image with
      | none => DEFAULT_POST_IMAGE
      | some s => if jsTrim s = "" then DEFAULT_POST_IMAGE else jsTrim s
    let post : StoredPost :=
      { id := toString (List.length store), title := data.title,
        slug := data.slug, content := data.content, image := image,
        status := data.status.getD "draft", tags := data.tags.getD [],
        author := data.author, publishedAt := pa2.getD none,
        deletedAt := none, createdAt := now }
    .ok (store ++ [post], post)

/-- The body accepted by updatePostSchema (all fields optional), again
with publishedAt/deletedAt present because the validate middleware does
not strip unknown keys from req.body. -/
structure UpdatePostPayload where
  title : Option String := none
  slug : Option String := none
  content : Option String := none
  author : Option String := none
  image : Option String := none
  status : Option String := none
  tags : Option (List String) := none
  publishedAt : Option (Option Nat) := none
  deletedAt : Option (Option Nat) := none
deriving DecidableEq, Repr

/-- Apply an update payload to a stored post the way findOneAndUpdate
applies a plain update object: every present field overwrites. -/
def applyPostUpdate (p : StoredPost) (u : UpdatePostPayload) : StoredPost :=
  { p with
    title := u.title.getD p.title, slug := u.slug.getD p.slug,
    content := u.content.getD p.content, author := u.author.getD p.author,
    image := u.image.getD p.image, status := u.status.getD p.status,
    tags := u.tags.getD p.tags,
    publishedAt := u.publishedAt.getD p.publishedAt,
    deletedAt := u.deletedAt.getD p.deletedAt }

/-- post.service.ts updatePost: trim/default a present image; status
deleted forces deletedAt now and publishedAt null; status published
forces publishedAt now and deletedAt null; status draft nulls both;
then findOneAndUpdate on id with status not deleted (404 otherwise). -/
def updatePost (now : Nat) (store : PostStore) (id : String)
    (data : UpdatePostPayload) : Except AppError (PostStore × StoredPost) :=
  let p0 :=
    match data.image with
    | none => data
    | some s =>
      { data with image := some (if jsTrim s = "" then DEFAULT_POST_IMAGE else jsTrim s) }
  let p1 :=
    if p0.status = some "deleted" then
      { p0 with deletedAt := some (some now), publishedAt := some none }
    else p0
  let p2 :=
    if p1.status = some "published" then
      { p1 with publishedAt := some (some now), deletedAt := some none }
    else p1
  let p3 :=
    if p2.status = some "draft" then
      { p2 with publishedAt := some none, deletedAt := some none }
    else p2
  match List.find? (postAlive id) store with
  | none => .error ⟨"Post not found", 404⟩
  | some p =>
    .ok (updateFirst (postAlive id) (fun x => applyPostUpdate x p3) store,
         applyPostUpdate p p3)

/-- The identity middleware attaches to the request (req.user). -/
structure AuthUser where
  userId : String
  role : String
deriving DecidableEq, Repr

/-- req.user?.role — the optional-chained role read used by the guards. -/
def roleOf (u : Option AuthUser) : Option String :=
  u.map (fun x => x.role)

/-- middlewares/auth.ts adminOnly: forbidden unless the attached role is
admin or super_admin (a missing req.user also fails the comparison). -/
def adminOnly (u : Option AuthUser) : Except AppError Unit :=
  if roleOf u ≠ some "admin" ∧ roleOf u ≠ some "super_admin" then
    .error ⟨"Forbidden (admin only)", 403⟩
  else .ok ()

/-- middlewares/auth.ts superAdminOnly: forbidden unless the attached
role is super_admin. -/
def superAdminOnly (u : Option AuthUser) : Except AppError Unit :=
  if roleOf u ≠ some "super_admin" then
    .error ⟨"Forbidden (super admin only)", 403⟩
  else .ok ()

/-- An Authorization header, modelled as the scheme word before the first
space plus the (already decoded) token after it; the source checks
startsWith Bearer-space and takes split(space) index 1. -/
structure BearerHeader where
  scheme : String
  token : SignedToken
deriving DecidableEq, Repr

/-- middlewares/auth.ts protect: missing header or wrong scheme is 401;
jwt.verify failure (wrong secret or expired) is 401; success attaches
the decoded userId and role as req.user. -/
def protect (env : EnvConfig) (now : Nat) (hdr : Option BearerHeader) :
    Except AppError AuthUser :=
  match hdr with
  | none => .error ⟨"Not authorized (missing token)", 401⟩
  | some h =>
    if h.scheme ≠ "Bearer" then .error ⟨"Not authorized (missing token)", 401⟩
    else
      match jwtVerify h.token env.JWT_SECRET now with
      | some c => .ok ⟨c.userId, c.role⟩
      | none => .error ⟨"Invalid or expired token", 401⟩

/-- One middleware occurrence in an Express route chain. -/
inductive Middleware where
  | protect
  | adminOnly
  | superAdminOnly
  | validate (schema : String)
  | upload (field : String)
  | normalize
  | handler (name : String)
deriving DecidableEq, Repr

/-- auth.routes.ts: POST /api/auth/register — no protect middleware. -/
def registerChain : List Middleware :=
  [.validate "registerSchema", .handler "register"]

/-- auth.routes.ts: POST /api/auth/login. -/
def loginChain : List Middleware :=
  [.validate "loginSchema", .handler "login"]

/-- user.routes.ts: GET /api/users (router-level protect, then
superAdminOnly). -/
def userListChain : List Middleware :=
  [.protect, .superAdminOnly, .handler "getUsers"]

/-- user.routes.ts: PATCH /api/users/:id. -/
def userDeactivateChain : List Middleware :=
  [.protect, .superAdminOnly, .validate "idParamSchema", .handler "deactivateUser"]

/-- user.routes.ts: PATCH /api/users/:id/role. -/
def userRoleChain : List Middleware :=
  [.protect, .superAdminOnly, .validate "idParamSchema",
   .validate "updateUserRoleSchema", .handler "updateUserRole"]

/-- author.routes.ts: POST /api/authors (router-level protect, then
adminOnly). -/
def authorCreateChain : List Middleware :=
  [.protect, .adminOnly, .validate "createAuthorSchema", .handler "createAuthor"]

/-- author.routes.ts: DELETE /api/authors/:id. -/
def authorDeleteChain : List Middleware :=
  [.protect, .adminOnly, .validate "idParamSchema", .handler "deleteAuthor"]

/-- post.routes.ts: POST /api/posts. -/
def postCreateChain : List Middleware :=
  [.protect, .adminOnly, .upload "image", .normalize,
   .validate "createPostSchema", .handler "createPost"]

/-- post.routes.ts: DELETE /api/posts/:id. -/
def postDeleteChain : List Middleware :=
  [.protect, .adminOnly, .validate "idParamSchema", .handler "deletePost"]

/-- The role gate a protected route stacks after protect. -/
inductive RoleGate where
  | anyAuthenticated
  | adminTier
  | superTier
deriving DecidableEq, Repr

/-- Run the role gate of a route on the attached identity. -/
def runGate (g : RoleGate) (u : Option AuthUser) : Except AppError Unit :=
  match g with
  | .anyAuthenticated => .ok ()
  | .adminTier => adminOnly u
  | .superTier => superAdminOnly u

/-- The full authentication-plus-authorization decision for a request.
The store argument is the user database state at request time: it is an
explicit parameter so that independence from it can be stated, and the
body never consults it, exactly like the middleware source, which
imports only jsonwebtoken, AppError and env and performs no query. -/
def authDecision (store : UserStore) (env : EnvConfig) (now : Nat)
    (hdr : Option BearerHeader) (g : RoleGate) : Except AppError AuthUser :=
  match protect env now hdr with
  | .error e => .error e
  | .ok u =>
    match runGate g (some u) with
    | .error e => .error e
    | .ok _ => .ok u

/-- Insert into a sorted list using a Bool comparator (helper for the
sort stage model). -/
def insertOrd {α : Type} (le : α → α → Bool) (x : α) : List α → List α
  | [] => [x]
  | y :: ys => if le x y then x :: y :: ys else y :: insertOrd le x ys

/-- Insertion sort by a Bool comparator: the model of the Mongo sort
applied by ApiFeatures.sort. Only the length of the result matters to
the claims; the ordering itself is stated by no theorem. -/
def sortOrd {α : Type} (le : α → α → Bool) : List α → List α
  | [] => []
  | x :: xs => insertOrd le x (sortOrd le xs)

/-- Case-insensitive substring test: the model of the case-insensitive
regex match built by ApiFeatures.search (regex metacharacters in the
needle are not modelled; the search term is treated literally). -/
def ciContains (hay needle : String) : Bool :=
  containsSub (needle.data.map Char.toLower) (hay.data.map Char.toLower)

/-- The effective search term: String(reqQuery.q or empty).trim(). -/
def searchTermOf (rq : ReqQuery) : String :=
  jsTrim (rq.q.getD "")

/-- ApiFeatures.sort generically: sort field name from reqQuery.sort
(empty means absent), order defaults to desc; an absent field falls back
to the default sort, most-recent-created-first. Field values are
compared through a per-resource string projection. -/
def sortStage {α : Type} (fieldVal : String → α → String) (createdAt : α → Nat)
    (rq : ReqQuery) (xs : List α) : List α :=
  let f := rq.sort.getD ""
  let asc := strToLower (effectiveParam rq.order "desc") = "asc"
  if f = "" then sortOrd (fun a b => decide (createdAt b ≤ createdAt a)) xs
  else if asc then sortOrd (fun a b => decide (fieldVal f a ≤ fieldVal f b)) xs
  else sortOrd (fun a b => decide (fieldVal f b ≤ fieldVal f a)) xs

/-- String projection of a StoredPost field for the sort stage. -/
def postFieldStr (f : String) (p : StoredPost) : String :=
  match f with
  | "title" => p.title
  | "slug" => p.slug
  | "content" => p.content
  | "status" => p.status
  | "image" => p.image
  | "author" => p.author
  | "createdAt" => toString p.createdAt
  | _ => ""

/-- String projection of a StoredAuthor field for the sort stage. -/
def authorFieldStr (f : String) (a : StoredAuthor) : String :=
  match f with
  | "name" => a.name
  | "email" => a.email
  | "bio" => a.bio
  | "status" => a.status
  | "createdAt" => toString a.createdAt
  | _ => ""

/-- String projection of a StoredUser field for the sort stage. -/
def userFieldStr (f : String) (u : StoredUser) : String :=
  match f with
  | "name" => u.name
  | "email" => u.email
  | "role" => u.role
  | "createdAt" => toString u.createdAt
  | _ => ""

/-- ApiFeatures.filter for the posts list, allow-list [status, author,
tag]: equality on status and author when present; a truthy tag parameter
is remapped to membership in the tags array, while an empty-string tag
survives the remap as a filter on the nonexistent tag path and matches
no document. -/
def postFilterPred (rq : ReqQuery) (p : StoredPost) : Bool :=
  (match rq.status with | none => true | some v => p.status = v) &&
  (match rq.author with | none => true | some v => p.author = v) &&
  (match rq.tag with
   | none => true
   | some v => if v = "" then false else p.tags.contains v)

/-- ApiFeatures.filter for the author-scoped posts list, allow-list
[status, tag]. -/
def postByAuthorFilterPred (rq : ReqQuery) (p : StoredPost) : Bool :=
  (match rq.status with | none => true | some v => p.status = v) &&
  (match rq.tag with
   | none => true
   | some v => if v = "" then false else p.tags.contains v)

/-- ApiFeatures.search over title, content and slug. -/
def postSearchPred (rq : ReqQuery) (p : StoredPost) : Bool :=
  let s := searchTermOf rq
  s = "" || (ciContains p.title s || ciContains p.content s || ciContains p.slug s)

/-- ApiFeatures.filter for the authors list, allow-list [name, email]. -/
def authorFilterPred (rq : ReqQuery) (a : StoredAuthor) : Bool :=
  (match rq.name with | none => true | some v => a.name = v) &&
  (match rq.email with | none => true | some v => a.email = v)

/-- ApiFeatures.search over author name and email. -/
def authorSearchPred (rq : ReqQuery) (a : StoredAuthor) : Bool :=
  let s := searchTermOf rq
  s = "" || (ciContains a.name s || ciContains a.email s)

/-- ApiFeatures.search over user name and email. -/
def userSearchPred (rq : ReqQuery) (u : StoredUser) : Bool :=
  let s := searchTermOf rq
  s = "" || (ciContains u.name s || ciContains u.email s)

/-- The list-response envelope every list endpoint returns. data and the
derived results count are none when the NaN pagination path is taken
(unparseable page or limit), whose backing-store behaviour the source
leaves to Mongoose. -/
structure ListResponse (α : Type) where
  page : Option Int
  limit : Option Int
  total : Nat
  totalPages : Option Nat
  results : Option Nat
  data : Option (List α)
deriving DecidableEq, Repr

/-- Assemble the envelope from the filter+search result (matched, used
for the count query) and its sorted copy (used for the data query):
total counts matched with no pagination, totalPages is
max(ceil(total/limit), 1), and data is the skip/limit window. -/
def buildListResponse {α : Type} (rq : ReqQuery) (matched sorted : List α) :
    ListResponse α :=
  let pc := paginateCalc rq 10 100
  let data :=
    match pc.skip, pc.limit with
    | some k, some l => some ((sorted.drop k.toNat).take l.toNat)
    | _, _ => none
  { page := pc.page, limit := pc.limit, total := matched.length,
    totalPages := pc.limit.map (fun l => jsCeilPages matched.length l.toNat),
    results := data.map List.length, data := data }

/-- getPosts authorId alias: a truthy authorId is copied onto a falsy
author parameter so the filter stage sees it. -/
def remapAuthorId (rq : ReqQuery) : ReqQuery :=
  if truthyStr rq.authorId && !truthyStr rq.author then
    { rq with author := rq.authorId }
  else rq

/-- The base scope of the posts list: status not deleted. -/
def postsBaseScope (store : PostStore) : List StoredPost :=
  store.filter (fun p => p.status ≠ "deleted")

/-- post.service.ts getPosts: remap authorId, base scope not-deleted,
filter, search, sort, paginate; the count query re-runs only filter and
search on the same base scope. -/
def getPosts (store : PostStore) (rq0 : ReqQuery) : ListResponse StoredPost :=
  let rq := remapAuthorId rq0
  let matched :=
    ((postsBaseScope store).filter (postFilterPred rq)).filter (postSearchPred rq)
  buildListResponse rq matched
    (sortStage postFieldStr StoredPost.createdAt rq matched)

/-- The base scope of the authors list: status not deleted. -/
def authorsBaseScope (store : AuthorStore) : List StoredAuthor :=
  store.filter (fun a => a.status ≠ "deleted")

/-- author.service.ts getAuthors: base scope not-deleted, filter on
name/email, search name/email, sort, paginate; count re-runs filter and
search only. -/
def getAuthors (store : AuthorStore) (rq : ReqQuery) : ListResponse StoredAuthor :=
  let matched :=
    ((authorsBaseScope store).filter (authorFilterPred rq)).filter (authorSearchPred rq)
  buildListResponse rq matched
    (sortStage authorFieldStr StoredAuthor.createdAt rq matched)

/-- The base scope of the users list: active users whose role is admin
or super_admin. -/
def usersBaseScope (store : UserStore) : List StoredUser :=
  store.filter (fun u => u.isActive && (u.role = "admin" || u.role = "super_admin"))

/-- user.controller.ts getUsers: base scope active admin-tier users, no
filter stage, search name/email, sort, paginate; count re-runs search
only against the same base scope. -/
def getUsers (store : UserStore) (rq : ReqQuery) : ListResponse StoredUser :=
  let matched := (usersBaseScope store).filter (userSearchPred rq)
  buildListResponse rq matched
    (sortStage userFieldStr StoredUser.createdAt rq matched)

/-- mongoose Types.ObjectId.isValid for a string: 24 hex characters. -/
def isValidObjectId (s : String) : Bool :=
  s.length = 24 && s.data.all (fun c =>
    c.isDigit || ('a' ≤ c && c ≤ 'f') || ('A' ≤ c && c ≤ 'F'))

/-- post.service.ts getPostsByAuthor: 400 on an invalid ObjectId, then
the same pipeline over the base scope of the author's non-deleted posts
with allow-list [status, tag]. -/
def getPostsByAuthor (store : PostStore) (authorId : String) (rq : ReqQuery) :
    Except AppError (ListResponse StoredPost) :=
  if !isValidObjectId authorId then .error ⟨"Invalid author id", 400⟩
  else
    let base := store.filter (fun p => p.author = authorId && p.status ≠ "deleted")
    let matched :=
      (base.filter (postByAuthorFilterPred rq)).filter (postSearchPred rq)
    .ok (buildListResponse rq matched
      (sortStage postFieldStr StoredPost.createdAt rq matched))

/-- The envelope facts every list response is claimed to satisfy: total
is the given pagination-independent filter+search count, limit is a
number in [1,100], totalPages is max(ceil(total/limit), 1), and the data
page holds at most limit records (results being its length). -/
def envelopeOk {α : Type} (r : ListResponse α) (expectedTotal : Nat) : Prop :=
  r.total = expectedTotal ∧
  ∃ l d, r.limit = some l ∧ 1 ≤ l ∧ l ≤ 100 ∧
    r.totalPages = some (jsCeilPages r.total l.toNat) ∧
    r.data = some d ∧ d.length ≤ l.toNat ∧ r.results = some d.length

/-- Sample deactivated operator account (isActive false, deletedAt set). -/
def inactiveUser : StoredUser :=
  { id := "1", name := "A", email := "a@b.co",
    password := bcryptHash "pass12", role := "admin",
    isActive := false, deletedAt := some 5, createdAt := 0 }

/-- Sample configuration used by concrete instances. -/
def envSample : EnvConfig := ⟨"topsecret", 7⟩

/-- Sample already-soft-deleted post. -/
def delPost : StoredPost :=
  { id := "p1", title := "Ttl", slug := "ttl", content := "0123456789",
    author := "a1", status := "deleted", publishedAt := none,
    deletedAt := some 3, createdAt := 1 }

/-- Sample already-soft-deleted author. -/
def delAuthor : StoredAuthor :=
  { id := "a1", name := "Nn", email := "n@x.co", status := "deleted",
    deletedAt := some 2, createdAt := 0 }

/-- Sample live (active) author. -/
def liveAuthor : StoredAuthor :=
  { id := "a2", name := "Jane", email := "jane@x.co", status := "active",
    deletedAt := none, createdAt := 0 }

/-- Sample live draft post referencing liveAuthor. -/
def livePost : StoredPost :=
  { id := "p2", title := "Title", slug := "slg", content := "0123456789",
    author := "a2", status := "draft", publishedAt := none,
    deletedAt := none, createdAt := 2 }

/-- C1 counterexample: the stored user is deactivated (isActive false,
deletedAt set), yet login with that user's email and correct password
returns ok with a fresh token — the claim that a deactivated user can
never authenticate successfully is false on this input. -/
theorem c1_counterexample :
    inactiveUser.isActive = false ∧
    login envSample 10 [inactiveUser] "a@b.co" "pass12" =
      .ok ⟨signToken envSample 10 ⟨"1", "admin"⟩, ⟨"1", "A", "a@b.co", "admin"⟩⟩ :=
  ⟨rfl, rfl⟩

/-- C1 (amended): login authenticates from the email lookup and the
password comparison alone; it never consults isActive, so any stored
user — deactivated or not — whose email is found and whose password
matches receives a fresh token carrying that user's id and role.
Deactivation only removes the user from the users listing. -/
theorem c1_login_ignores_isActive (env : EnvConfig) (now : Nat)
    (store : UserStore) (email password : String) (u : StoredUser)
    (hu : findUserByEmail store email = some u)
    (hpw : bcryptCompare password u.password = true) :
    login env now store email password =
      .ok ⟨signToken env now ⟨u.id, u.role⟩, ⟨u.id, u.name, u.email, u.role⟩⟩ := by
  unfold login
  rw [hu]
  simp [hpw]

/-- C1 witness: the amended theorem applied to the deactivated sample
user with the correct password. -/
theorem c1_witness :
    login envSample 10 [inactiveUser] "a@b.co" "pass12" =
      .ok ⟨signToken envSample 10 ⟨"1", "admin"⟩, ⟨"1", "A", "a@b.co", "admin"⟩⟩ :=
  c1_login_ignores_isActive envSample 10 [inactiveUser] "a@b.co" "pass12"
    inactiveUser rfl rfl

/-- C2 counterexample: deactivating a user whose account is already
inactive (the User terminal state) does not return NotFound — the write
is unconditioned on isActive, so the call succeeds again and rewrites
deletedAt from 5 to 10, a second state change. -/
theorem c2_counterexample :
    inactiveUser.isActive = false ∧
    inactiveUser.deletedAt = some 5 ∧
    deactivateUser 10 [inactiveUser] "1" =
      .ok ([{ inactiveUser with isActive := false, deletedAt := some 10 }],
           { inactiveUser with isActive := false, deletedAt := some 10 }) :=
  ⟨rfl, rfl, rfl⟩

/-- C2 (amended): the Post and Author soft-delete writes are conditioned
on the record not already being deleted — when no live record with the
id exists the operation returns NotFound (404) and performs no write —
but the User deactivation is conditioned on the id alone: it succeeds on
any stored user, including an already inactive one, rewriting isActive
and deletedAt again. -/
theorem c2_soft_delete_conditioning :
    (∀ (now : Nat) (store : PostStore) (id : String),
        List.find? (postAlive id) store = none →
        deletePost now store id = .error ⟨"Post not found", 404⟩) ∧
    (∀ (now : Nat) (astore : AuthorStore) (pstore : PostStore) (id : String),
        List.find? (authorAlive id) astore = none →
        deleteAuthor now astore pstore id = .error ⟨"Author not found", 404⟩) ∧
    (∀ (now : Nat) (store : UserStore) (id : String) (u : StoredUser),
        List.find? (fun v => v.id = id) store = some u →
        deactivateUser now store id =
          .ok (updateFirst (fun v => v.id = id)
                 (fun v => { v with isActive := false, deletedAt := some now }) store,
               { u with isActive := false, deletedAt := some now })) := by
  refine ⟨?_, ?_, ?_⟩
  · intro now store id h
    unfold deletePost
    rw [h]
  · intro now astore pstore id h
    unfold deleteAuthor
    rw [h]
  · intro now store id u h
    unfold deactivateUser
    rw [h]

/-- C2 witness: the amended theorem at concrete inputs — deleting the
already-deleted sample post and sample author yields 404, while
deactivating the already-inactive sample user succeeds again. -/
theorem c2_witness :
    deletePost 10 [delPost] "p1" = .error ⟨"Post not found", 404⟩ ∧
    deleteAuthor 10 [delAuthor] [] "a1" = .error ⟨"Author not found", 404⟩ ∧
    deactivateUser 10 [inactiveUser] "1" =
      .ok (updateFirst (fun v => v.id = "1")
             (fun v => { v with isActive := false, deletedAt := some 10 }) [inactiveUser],
           { inactiveUser with isActive := false, deletedAt := some 10 }) :=
  ⟨c2_soft_delete_conditioning.1 10 [delPost] "p1" rfl,
   c2_soft_delete_conditioning.2.1 10 [delAuthor] [] "a1" rfl,
   c2_soft_delete_conditioning.2.2 10 [inactiveUser] "1" inactiveUser rfl⟩

/-- C3: the register route carries no protect middleware, and for any
schema-valid payload with an unused email and role super_admin the
register operation creates a user whose role is super_admin and signs a
token carrying that role — an unauthenticated caller can obtain
super_admin privileges. -/
theorem c3_open_register_super_admin (env : EnvConfig) (now : Nat)
    (store : UserStore) (name email password : String)
    (hschema : registerSchemaOk name email password (some "super_admin") = true)
    (hfree : findUserByEmail store email = none) :
    Middleware.protect ∉ registerChain ∧
    ∃ store2 res, register env now store name email password (some "super_admin") =
        .ok (store2, res) ∧
      res.user.role = "super_admin" ∧
      res.token.claims.role = "super_admin" ∧
      ∃ u, store2 = store ++ [u] ∧ u.role = "super_admin" := by
  refine ⟨by decide, ?_⟩
  unfold register
  rw [hfree]
  exact ⟨_, _, rfl, rfl, rfl, _, rfl, rfl⟩

/-- C3 witness: registering against the empty store with a valid payload
requesting the super_admin role. -/
theorem c3_witness :
    Middleware.protect ∉ registerChain ∧
    ∃ store2 res, register envSample 0 [] "Bob" "bob@x.co" "secret1" (some "super_admin") =
        .ok (store2, res) ∧
      res.user.role = "super_admin" ∧
      res.token.claims.role = "super_admin" ∧
      ∃ u, store2 = ([] : UserStore) ++ [u] ∧ u.role = "super_admin" :=
  c3_open_register_super_admin envSample 0 [] "Bob" "bob@x.co" "secret1"
    (by decide) rfl

/-- C4: for an existing non-deleted author, deleteAuthor fails with the
referential-conflict 400 exactly when at least one non-deleted post
references the author, and otherwise soft-deletes the author (status
deleted, deletedAt now); the count is taken before any write, and in the
conflict case no store change is produced. -/
theorem c4_delete_author_guard (now : Nat) (astore : AuthorStore)
    (pstore : PostStore) (id : String) (a : StoredAuthor)
    (ha : List.find? (authorAlive id) astore = some a) :
    (0 < (pstore.filter (fun p => p.author = a.id && p.status ≠ "deleted")).length →
      deleteAuthor now astore pstore id =
        .error ⟨"Cannot delete author: this author still has posts. Delete the author\x27s posts first.", 400⟩) ∧
    ((pstore.filter (fun p => p.author = a.id && p.status ≠ "deleted")).length = 0 →
      deleteAuthor now astore pstore id =
        .ok (updateFirst (authorAlive id)
               (fun v => { v with status := "deleted", deletedAt := some now }) astore,
             { a with status := "deleted", deletedAt := some now })) := by
  constructor
  · intro hcnt
    unfold deleteAuthor
    rw [ha]
    simp only [if_pos hcnt]
  · intro hcnt
    simp only [deleteAuthor, ha]
    rw [hcnt]
    simp

/-- C4 witness: with a live draft post referencing the live sample
author the delete yields the referential conflict; with no posts it
succeeds and soft-deletes the author. -/
theorem c4_witness :
    deleteAuthor 9 [liveAuthor] [livePost] "a2" =
      .error ⟨"Cannot delete author: this author still has posts. Delete the author\x27s posts first.", 400⟩ ∧
    deleteAuthor 9 [liveAuthor] [] "a2" =
      .ok (updateFirst (authorAlive "a2")
             (fun v => { v with status := "deleted", deletedAt := some 9 }) [liveAuthor],
           { liveAuthor with status := "deleted", deletedAt := some 9 }) :=
  ⟨(c4_delete_author_guard 9 [liveAuthor] [livePost] "a2" liveAuthor rfl).1 (by decide),
   (c4_delete_author_guard 9 [liveAuthor] [] "a2" liveAuthor rfl).2 rfl⟩

/-- C5 counterexample: a non-numeric page (or limit) parameter is not
coerced into the valid range — parseInt yields NaN and Math.max/Math.min
propagate it, so the paginate stage produces NaN page, limit and offset
instead of any number at least 1. -/
theorem c5_counterexample :
    (paginateCalc { page := some "abc" } 10 100).page = none ∧
    (paginateCalc { page := some "abc" } 10 100).skip = none ∧
    (paginateCalc { limit := some "xyz" } 10 100).limit = none ∧
    ¬ ∃ p : Int, (paginateCalc { page := some "abc" } 10 100).page = some p ∧ 1 ≤ p := by
  refine ⟨rfl, rfl, rfl, ?_⟩
  rintro ⟨p, hp, -⟩
  exact Option.noConfusion hp

/-- C5 (amended): whenever the raw page and limit values (or their
defaults 1 and 10 when the parameter is absent or empty) parse to a
number, the paginate stage clamps them — page = max(parsed, 1) ≥ 1,
limit = min(max(parsed, 1), 100) in [1,100] — and the offset is
(page-1)*limit; but a page or limit string with no leading digits parses
to NaN and is propagated, not coerced. -/
theorem c5_paginate_clamps (rq : ReqQuery) (pp ll : Int)
    (hp : jsParseInt (effectiveParam rq.page "1") = some pp)
    (hl : jsParseInt (effectiveParam rq.limit (toString (10 : Int))) = some ll) :
    (paginateCalc rq 10 100).page = some (max pp 1) ∧
    1 ≤ max pp 1 ∧
    (paginateCalc rq 10 100).limit = some (min (max ll 1) 100) ∧
    1 ≤ min (max ll 1) 100 ∧ min (max ll 1) 100 ≤ 100 ∧
    (paginateCalc rq 10 100).skip = some ((max pp 1 - 1) * min (max ll 1) 100) := by
  unfold paginateCalc
  rw [hp, hl]
  refine ⟨rfl, le_max_right pp 1, rfl, ?_, ?_, rfl⟩
  · exact le_min (le_max_right ll 1) (by norm_num)
  · exact min_le_right _ _

/-- C5 witness: the amended theorem on the empty query, where both
parameters fall back to their defaults 1 and 10. -/
theorem c5_witness :
    (paginateCalc {} 10 100).page = some (max 1 1) ∧
    1 ≤ max (1 : Int) 1 ∧
    (paginateCalc {} 10 100).limit = some (min (max 10 1) 100) ∧
    1 ≤ min (max (10 : Int) 1) 100 ∧ min (max (10 : Int) 1) 100 ≤ 100 ∧
    (paginateCalc {} 10 100).skip = some ((max 1 1 - 1) * min (max 10 1) 100) :=
  c5_paginate_clamps {} 1 10 rfl (by decide)

/-- Envelope helper: whatever the matched list, sorted list and query,
when the page and limit parameters parse, buildListResponse satisfies
the envelope facts of envelopeOk. -/
theorem buildListResponse_ok {α : Type} (rq : ReqQuery) (matched sorted : List α)
    (pp ll : Int)
    (hp : jsParseInt (effectiveParam rq.page "1") = some pp)
    (hl : jsParseInt (effectiveParam rq.limit (toString (10 : Int))) = some ll) :
    envelopeOk (buildListResponse rq matched sorted) matched.length := by
  refine ⟨rfl, min (max ll 1) 100,
    (sorted.drop ((max pp 1 - 1) * min (max ll 1) 100).toNat).take
      (min (max ll 1) 100).toNat, ?_⟩
  have hlim : (paginateCalc rq 10 100).limit = some (min (max ll 1) 100) := by
    unfold paginateCalc
    rw [hl]
    rfl
  have hskip : (paginateCalc rq 10 100).skip =
      some ((max pp 1 - 1) * min (max ll 1) 100) := by
    unfold paginateCalc
    rw [hp, hl]
    rfl
  have h1 : (1 : Int) ≤ min (max ll 1) 100 :=
    le_min (le_max_right ll 1) (by norm_num)
  refine ⟨?_, h1, min_le_right _ _, ?_, ?_, ?_, ?_⟩
  · show (paginateCalc rq 10 100).limit = some (min (max ll 1) 100)
    exact hlim
  · show (paginateCalc rq 10 100).limit.map
        (fun l => jsCeilPages matched.length l.toNat) = _
    rw [hlim]
    rfl
  · show (match (paginateCalc rq 10 100).skip, (paginateCalc rq 10 100).limit with
      | some k, some l => some ((sorted.drop k.toNat).take l.toNat)
      | _, _ => none) = _
    rw [hskip, hlim]
  · rw [List.length_take]
    exact min_le_left _ _
  · show ((match (paginateCalc rq 10 100).skip, (paginateCalc rq 10 100).limit with
      | some k, some l => some ((sorted.drop k.toNat).take l.toNat)
      | _, _ => none)).map List.length = _
    rw [hskip, hlim]
    rfl

/-- The authorId alias remap touches only the author field. -/
theorem remapAuthorId_page (rq : ReqQuery) : (remapAuthorId rq).page = rq.page := by
  unfold remapAuthorId
  split <;> rfl

/-- The authorId alias remap touches only the author field. -/
theorem remapAuthorId_limit (rq : ReqQuery) : (remapAuthorId rq).limit = rq.limit := by
  unfold remapAuthorId
  split <;> rfl

/-- C6: for every list endpoint (posts, authors, users, posts-by-author)
and every query whose page and limit parse, the response satisfies
total = the count of the filter+search stages re-run on the same base
scope with no pagination, totalPages = max(ceil(total/limit), 1), and
the returned data holds at most limit records. -/
theorem c6_list_envelopes (pstore : PostStore) (astore : AuthorStore)
    (ustore : UserStore) (aid : String) (rq : ReqQuery) (pp ll : Int)
    (hp : jsParseInt (effectiveParam rq.page "1") = some pp)
    (hl : jsParseInt (effectiveParam rq.limit (toString (10 : Int))) = some ll)
    (hid : isValidObjectId aid = true) :
    envelopeOk (getPosts pstore rq)
      (((postsBaseScope pstore).filter (postFilterPred (remapAuthorId rq))).filter
        (postSearchPred (remapAuthorId rq))).length ∧
    envelopeOk (getAuthors astore rq)
      (((authorsBaseScope astore).filter (authorFilterPred rq)).filter
        (authorSearchPred rq)).length ∧
    envelopeOk (getUsers ustore rq)
      ((usersBaseScope ustore).filter (userSearchPred rq)).length ∧
    ∃ r, getPostsByAuthor pstore aid rq = .ok r ∧
      envelopeOk r
        (((pstore.filter (fun p => p.author = aid && p.status ≠ "deleted")).filter
          (postByAuthorFilterPred rq)).filter (postSearchPred rq)).length := by
  have hp2 : jsParseInt (effectiveParam (remapAuthorId rq).page "1") = some pp := by
    rw [remapAuthorId_page]
    exact hp
  have hl2 : jsParseInt (effectiveParam (remapAuthorId rq).limit (toString (10 : Int))) =
      some ll := by
    rw [remapAuthorId_limit]
    exact hl
  refine ⟨buildListResponse_ok _ _ _ pp ll hp2 hl2,
    buildListResponse_ok _ _ _ pp ll hp hl,
    buildListResponse_ok _ _ _ pp ll hp hl, ?_⟩
  simp only [getPostsByAuthor, hid, Bool.not_true, Bool.false_eq_true, if_false]
  exact ⟨_, rfl, buildListResponse_ok _ _ _ pp ll hp hl⟩

/-- C6 witness: the posts list over a one-post store with the empty
query, and the author-scoped list for an author with no posts. -/
theorem c6_witness :
    envelopeOk (getPosts [livePost] {}) 1 ∧
    (∃ r, getPostsByAuthor [livePost] "aaaaaaaaaaaaaaaaaaaaaaaa" {} = .ok r ∧
      envelopeOk r 0) :=
  ⟨(c6_list_envelopes [livePost] [] [] "aaaaaaaaaaaaaaaaaaaaaaaa" {} 1 10 rfl
      (by decide) (by decide)).1,
   (c6_list_envelopes [livePost] [] [] "aaaaaaaaaaaaaaaaaaaaaaaa" {} 1 10 rfl
      (by decide) (by decide)).2.2.2⟩

/-- C7: updating a stored non-deleted post with a payload whose status is
published stores a non-null publishedAt (set to now) and a null
deletedAt; a payload whose status is draft stores a null publishedAt. -/
theorem c7_update_publish_dates (now : Nat) (store : PostStore) (id : String)
    (data : UpdatePostPayload) (p : StoredPost)
    (hfind : List.find? (postAlive id) store = some p) :
    (data.status = some "published" →
      ∃ store2 p2, updatePost now store id data = .ok (store2, p2) ∧
        p2.publishedAt = some now ∧ p2.publishedAt ≠ none ∧ p2.deletedAt = none) ∧
    (data.status = some "draft" →
      ∃ store2 p2, updatePost now store id data = .ok (store2, p2) ∧
        p2.publishedAt = none) := by
  constructor
  · intro hs
    unfold updatePost
    cases himg : data.image <;>
      simp [himg, hs, hfind, applyPostUpdate] <;>
      exact ⟨_, _, ⟨rfl, rfl⟩, rfl, by simp, rfl⟩
  · intro hs
    unfold updatePost
    cases himg : data.image <;>
      simp [himg, hs, hfind, applyPostUpdate] <;>
      exact ⟨_, _, ⟨rfl, rfl⟩, rfl⟩

/-- C7 witness: publishing the live draft post yields publishedAt = now
and deletedAt = null; setting it back to draft yields a null
publishedAt. -/
theorem c7_witness :
    (∃ store2 p2, updatePost 7 [livePost] "p2" { status := some "published" } =
        .ok (store2, p2) ∧
      p2.publishedAt = some 7 ∧ p2.publishedAt ≠ none ∧ p2.deletedAt = none) ∧
    (∃ store2 p2, updatePost 7 [livePost] "p2" { status := some "draft" } =
        .ok (store2, p2) ∧
      p2.publishedAt = none) :=
  ⟨(c7_update_publish_dates 7 [livePost] "p2" { status := some "published" }
      livePost rfl).1 rfl,
   (c7_update_publish_dates 7 [livePost] "p2" { status := some "draft" }
      livePost rfl).2 rfl⟩

/-- C8: creating a post whose payload status is deleted is rejected with
the 400 validation error before any write, and every successful create
appends exactly one record whose status is not deleted — a post can
never enter storage directly in the deleted state. -/
theorem c8_create_never_deleted (now : Nat) (store : PostStore)
    (data : CreatePostPayload) :
    (data.status = some "deleted" →
      createPost now store data =
        .error ⟨"Cannot create a post with status \x27deleted\x27", 400⟩) ∧
    (∀ store2 p, createPost now store data = .ok (store2, p) →
      p.status ≠ "deleted" ∧ store2 = store ++ [p]) := by
  constructor
  · intro hs
    unfold createPost
    rw [hs]
    rfl
  · intro store2 p hok
    unfold createPost at hok
    by_cases hs : data.status = some "deleted"
    · rw [hs] at hok
      exact absurd hok (by simp)
    · rw [if_neg hs] at hok
      simp only [Except.ok.injEq, Prod.mk.injEq] at hok
      obtain ⟨hst, hp⟩ := hok
      constructor
      · rw [← hp]
        show ¬ data.status.getD "draft" = "deleted"
        cases hd : data.status with
        | none => simp
        | some s =>
          simp only [Option.getD_some]
          intro he
          exact hs (by rw [hd, he])
      · rw [← hst, ← hp]

/-- C8 witness: a deleted-status payload is rejected, and creating the
same payload as a draft appends one non-deleted record. -/
theorem c8_witness :
    createPost 3 []
      { title := "Ttl", slug := "slg", content := "0123456789",
        author := "a2", status := some "deleted" } =
      .error ⟨"Cannot create a post with status \x27deleted\x27", 400⟩ ∧
    ((⟨"0", "Ttl", "slg", "0123456789", DEFAULT_POST_IMAGE, "draft", [],
        "a2", none, none, 3⟩ : StoredPost).status ≠ "deleted" ∧
      ([⟨"0", "Ttl", "slg", "0123456789", DEFAULT_POST_IMAGE, "draft", [],
         "a2", none, none, 3⟩] : PostStore) =
        [] ++ [⟨"0", "Ttl", "slg", "0123456789", DEFAULT_POST_IMAGE, "draft",
         [], "a2", none, none, 3⟩]) :=
  ⟨(c8_create_never_deleted 3 []
      { title := "Ttl", slug := "slg", content := "0123456789",
        author := "a2", status := some "deleted" }).1 rfl,
   (c8_create_never_deleted 3 []
      { title := "Ttl", slug := "slg", content := "0123456789",
        author := "a2", status := some "draft" }).2 _ _ rfl⟩

/-- C9: an identity with role admin passes the adminOnly gate (author
create) but is rejected with 403 by the superAdminOnly gate (user list);
an identity with role super_admin passes both. The user-list chain
indeed stacks superAdminOnly and the author-create chain adminOnly. -/
theorem c9_role_tiers (uid : String) :
    adminOnly (some ⟨uid, "admin"⟩) = .ok () ∧
    superAdminOnly (some ⟨uid, "admin"⟩) =
      .error ⟨"Forbidden (super admin only)", 403⟩ ∧
    adminOnly (some ⟨uid, "super_admin"⟩) = .ok () ∧
    superAdminOnly (some ⟨uid, "super_admin"⟩) = .ok () ∧
    Middleware.superAdminOnly ∈ userListChain ∧
    Middleware.superAdminOnly ∈ userDeactivateChain ∧
    Middleware.superAdminOnly ∈ userRoleChain ∧
    Middleware.adminOnly ∈ authorCreateChain ∧
    Middleware.adminOnly ∈ postCreateChain := by
  refine ⟨?_, ?_, ?_, ?_, by decide, by decide, by decide, by decide, by decide⟩
  · simp [adminOnly, roleOf]
  · simp [superAdminOnly, roleOf]
  · simp [adminOnly, roleOf]
  · simp [superAdminOnly, roleOf]

/-- C10: the authentication and role-authorization decision is a function
of the Authorization header, the signing configuration, the clock and
the required gate alone — the user-store state is ignored, so any two
requests with the same header get the same identity and the same
allow/deny outcome under any two store states; in particular
deactivating a user or changing a stored role never affects a request
authenticated with a previously issued token. -/
theorem c10_auth_ignores_store (s1 s2 : UserStore) (env : EnvConfig)
    (now : Nat) (hdr : Option BearerHeader) (g : RoleGate)
    (id : String) (t : Nat) (newRole : String) :
    authDecision s1 env now hdr g = authDecision s2 env now hdr g ∧
    authDecision (updateFirst (fun v => v.id = id)
        (fun v => { v with isActive := false, deletedAt := some t }) s1)
        env now hdr g =
      authDecision s1 env now hdr g ∧
    authDecision (updateFirst (fun v => v.id = id)
        (fun v => { v with role := newRole }) s1) env now hdr g =
      authDecision s1 env now hdr g :=
  ⟨rfl, rfl, rfl⟩
